import Mathlib

/-!
Verification development for the contactless attendance system.

The definitions below are a shallow embedding of:
* `supabase/functions/validate-face-image/index.ts` — the server-side image
  validator (size gate, magic-byte sniff, JPEG/PNG dimension extraction) and
  the surrounding request flow (authorization, quota, data-URI decode);
* `src/pages/Camera.tsx` (`sendAttendance`) — the attendance submission flow;
* `src/components/FaceEnrollment.tsx` (`uploadPhotos`) — the enrollment photo
  upload flow, the only caller of the validator.

Bytes are modelled as `List Nat`; a `Uint8Array` guarantees every element is
below 256, and theorems that need that fact carry it as a hypothesis.
JavaScript out-of-bounds reads yield `undefined`; in the expressions the
source uses, `undefined` compares unequal to any number, makes every `>=`
comparison false, and coerces to `0` inside `<<` and `|`.  The helpers
`byteAt` (an `Option`, for comparisons) and `byteAtD` (defaulting to `0`,
for arithmetic) reproduce exactly those behaviours.
-/

set_option maxRecDepth 100000

namespace AttendanceSystem

/-- `MAX_FILE_SIZE = 5 * 1024 * 1024` from index.ts line 9. -/
def MAX_FILE_SIZE : Nat := 5 * 1024 * 1024

/-- `MIN_DIMENSION = 100` from index.ts line 10. -/
def MIN_DIMENSION : Nat := 100

/-- `MAX_DIMENSION = 4000` from index.ts line 11. -/
def MAX_DIMENSION : Nat := 4000

/-- `MAX_UPLOADS_PER_DAY = 20` from index.ts line 12. -/
def MAX_UPLOADS_PER_DAY : Nat := 20

/-- `MAGIC_BYTES.jpeg` from index.ts line 16. -/
def jpegMagic : List Nat := [0xFF, 0xD8, 0xFF]

/-- `MAGIC_BYTES.png` from index.ts line 17. -/
def pngMagic : List Nat := [0x89, 0x50, 0x4E, 0x47]

/-- `MAGIC_BYTES.webp` (the RIFF signature) from index.ts line 18. -/
def riffMagic : List Nat := [0x52, 0x49, 0x46, 0x46]

/-- JavaScript `bytes[i]`: `some` the element when in bounds, otherwise
`none` (undefined). -/
def byteAt (bytes : List Nat) (i : Nat) : Option Nat := bytes.get? i

/-- JavaScript `bytes[i]` as it behaves inside `<<` and `|`: an
out-of-bounds read coerces to `0`. -/
def byteAtD (bytes : List Nat) (i : Nat) : Nat := bytes.getD i 0

/-- `(bytes[i] << 8) | bytes[i+1]` — the big-endian 16-bit read used by the
JPEG dimension extraction (index.ts lines 130-131, 143). -/
def be16 (bytes : List Nat) (i : Nat) : Nat :=
  (byteAtD bytes i) <<< 8 ||| byteAtD bytes (i + 1)

/-- `(bytes[i] << 24) | (bytes[i+1] << 16) | (bytes[i+2] << 8) | bytes[i+3]`
before JavaScript reinterprets the result as a signed 32-bit value
(index.ts lines 153-154). -/
def u32at (bytes : List Nat) (i : Nat) : Nat :=
  (byteAtD bytes i) <<< 24 ||| (byteAtD bytes (i + 1)) <<< 16 |||
    (byteAtD bytes (i + 2)) <<< 8 ||| byteAtD bytes (i + 3)

/-- Reinterpret an unsigned 32-bit value the way JavaScript bitwise
operators do: two's complement signed 32-bit. -/
def toSigned32 (u : Nat) : Int :=
  if u < 2 ^ 31 then (u : Int) else (u : Int) - 2 ^ 32

/-- The signed 32-bit big-endian read the PNG branch performs
(index.ts lines 153-154): JavaScript `|` yields a signed 32-bit integer. -/
def be32js (bytes : List Nat) (i : Nat) : Int := toSigned32 (u32at bytes i)

/-- The spec-level reading of a big-endian 32-bit integer (an unsigned
number), used to compare the source against the words of the spec. -/
def beNat32 (bytes : List Nat) (i : Nat) : Nat :=
  byteAtD bytes i * 2 ^ 24 + byteAtD bytes (i + 1) * 2 ^ 16 +
    byteAtD bytes (i + 2) * 2 ^ 8 + byteAtD bytes (i + 3)

/-- `magic.every((byte, i) => bytes[i] === byte)` from index.ts line 104:
each signature byte must equal the byte at the same index (an out-of-bounds
read is `undefined` and fails the strict equality). -/
def matchesMagic : List Nat → List Nat → Bool
  | _, [] => true
  | [], _ :: _ => false
  | b :: bs, m :: ms => b == m && matchesMagic bs ms

/-- The `for (const [format, magic] of Object.entries(MAGIC_BYTES))` loop of
index.ts lines 103-109: first match wins, iteration order jpeg, png, webp. -/
def detectFormat (bytes : List Nat) : Option String :=
  if matchesMagic bytes jpegMagic then some "jpeg"
  else if matchesMagic bytes pngMagic then some "png"
  else if matchesMagic bytes riffMagic then some "webp"
  else none

/-- The SOF test of index.ts line 129:
`marker >= 0xC0 && marker <= 0xCF && marker !== 0xC4 && marker !== 0xC8 &&
marker !== 0xCC`.  When `marker` is `undefined` (out-of-bounds read) every
comparison is false. -/
def isSOF : Option Nat → Bool
  | some m =>
    decide (0xC0 ≤ m) && decide (m ≤ 0xCF) && (m != 0xC4) && (m != 0xC8)
      && (m != 0xCC)
  | none => false

/-- `throw new Error(...)` message of index.ts line 92 (template evaluated:
`MAX_FILE_SIZE / 1024 / 1024 = 5`). -/
def fileTooLargeMsg : String := "File too large. Maximum size: 5MB"

/-- index.ts line 96. -/
def fileTooSmallMsg : String := "File too small. Minimum size: 1KB"

/-- index.ts line 112. -/
def invalidFormatMsg : String :=
  "Invalid image format. Only JPEG, PNG, and WebP are allowed."

/-- index.ts lines 134 and 157 (template evaluated with
`MIN_DIMENSION = 100`). -/
def imageTooSmallMsg : String := "Image too small. Minimum dimensions: 100x100"

/-- index.ts lines 137 and 160 (template evaluated with
`MAX_DIMENSION = 4000`). -/
def imageTooLargeMsg : String := "Image too large. Maximum dimensions: 4000x4000"

/-- The JPEG marker-walking loop of index.ts lines 121-145, starting at
`offset = 2` (after the SOI marker).  Each iteration either breaks (the byte
under the cursor is not `0xFF`, or the cursor ran past the end), finds an
SOF marker and applies the dimension gate, or skips a segment by its
big-endian length.  The loop always advances the cursor by at least 2 per
iteration, so `bytes.length + 1` units of fuel always suffice
(`jpegScan_no_fuel_exhaustion` below); `none` marks the unreachable
fuel-exhaustion case, `some r` the loop finishing with `r` the thrown
dimension error (if any). -/
def jpegScan (bytes : List Nat) : Nat → Nat → Option (Option String)
  | 0, _ => none
  | fuel + 1, offset =>
    if offset < bytes.length then
      if byteAt bytes offset ≠ some 0xFF then some none
      else
        let marker := byteAt bytes (offset + 1)
        if isSOF marker then
          let height := be16 bytes (offset + 2 + 3)
          let width := be16 bytes (offset + 2 + 5)
          if width < MIN_DIMENSION ∨ height < MIN_DIMENSION then
            some (some imageTooSmallMsg)
          else if width > MAX_DIMENSION ∨ height > MAX_DIMENSION then
            some (some imageTooLargeMsg)
          else some none
        else
          jpegScan bytes fuel (offset + 2 + be16 bytes (offset + 2))
    else some none

/-- Result of the byte-level validation (index.ts lines 90-179): either the
success payload `{valid:true, format, size}` or the thrown error message
that becomes `{valid:false, error}`. -/
inductive VResult where
  | ok (format : String) (size : Nat)
  | err (reason : String)
deriving DecidableEq, Repr

/-- The byte-level validator of index.ts lines 90-179: size gate (too large
checked first, then too small), magic-byte sniff, then the format-specific
dimension checks.  WEBP (RIFF) has no dimension branch and is accepted as
soon as the signature matches. -/
def validateBytes (bytes : List Nat) : VResult :=
  if bytes.length > MAX_FILE_SIZE then .err fileTooLargeMsg
  else if bytes.length < 1000 then .err fileTooSmallMsg
  else
    match detectFormat bytes with
    | none => .err invalidFormatMsg
    | some fmt =>
      if fmt = "jpeg" then
        match jpegScan bytes (bytes.length + 1) 2 with
        | some (some e) => .err e
        | _ => .ok fmt bytes.length
      else if fmt = "png" then
        if 24 ≤ bytes.length then
          let width := be32js bytes 16
          let height := be32js bytes 20
          if width < (MIN_DIMENSION : Int) ∨ height < (MIN_DIMENSION : Int) then
            .err imageTooSmallMsg
          else if width > (MAX_DIMENSION : Int) ∨ height > (MAX_DIMENSION : Int) then
            .err imageTooLargeMsg
          else .ok fmt bytes.length
        else .ok fmt bytes.length
      else .ok fmt bytes.length

/-- The validator as invoked with the declared MIME subtype in scope
(index.ts line 81 binds `declaredType` from the data-URI regex and never
uses it again): the byte-level decision ignores the declared type. -/
def serveValidate (declaredType : String) (bytes : List Nat) : VResult :=
  validateBytes bytes

/-- Outcome of one request to the `validate-face-image` function, after
authentication succeeded.  The constructors mirror the distinct `throw`
sites of index.ts: the ownership check (line 53), the quota check
(line 71), the data-URI regex (line 77), and the byte-level validation. -/
inductive AdmitOutcome where
  | authzError
  | quotaError
  | malformedError
  | validated (r : VResult)
deriving DecidableEq, Repr

/-- The request flow of index.ts lines 50-179 for an authenticated
`principal`: the ownership check `user.id !== userId` (line 53), then the
quota check `currentPhotoCount >= MAX_UPLOADS_PER_DAY` (line 71), then the
data-URI regex and base64 decode (lines 76-88, modelled by the `payload`
argument: `none` when the regex fails, otherwise the declared subtype and
the decoded bytes), then the byte-level validator.  The second component
counts how many times the byte-level validator ran. -/
def ingest (principal claimed : String) (photoCount : Nat)
    (payload : Option (String × List Nat)) : AdmitOutcome × Nat :=
  if principal ≠ claimed then (.authzError, 0)
  else if MAX_UPLOADS_PER_DAY ≤ photoCount then (.quotaError, 0)
  else
    match payload with
    | none => (.malformedError, 0)
    | some (t, bytes) => (.validated (serveValidate t bytes), 1)

/-!
Model of the attendance submission flow, `sendAttendance` in
`src/pages/Camera.tsx` (src/unnamed/part_001 lines 153-284).

The collaborator calls of the source return error values inside their
result objects (the supabase client does not throw on a failed upload,
signed-URL creation, insert, or function invocation), so they are modelled
as boolean oracles.  The email invocation additionally sits in its own
try/catch whose handler only logs (lines 263-266).
-/

/-- The profile row the flow reads its identity fields from
(part_001 lines 36-44, 228-231). -/
structure Profile where
  roll_number : String
  full_name : String
  email : String
deriving DecidableEq, Repr

/-- The row passed to `supabase.from("attendance_records").insert`
(part_001 lines 227-236). -/
structure AttendanceRecord (α : Type) where
  user_id : String
  roll_number : String
  student_name : String
  email : String
  confidence_score : Rat
  status : String
  face_vector : α
  image_url : Option String
deriving DecidableEq, Repr

/-- Outcomes of the external collaborator calls `sendAttendance` makes:
`uploadError` — storage `upload` returns an error (line 195);
`signedUrlError` — `createSignedUrl` returns an error (line 204);
`signedUrl` — the URL returned when it succeeds (line 207);
`insertError` — the record insert returns `dbError` (line 239);
`emailError` — the email function invocation rejects (line 263). -/
structure Collab where
  uploadError : Bool
  signedUrlError : Bool
  signedUrl : String
  insertError : Bool
  emailError : Bool
deriving DecidableEq, Repr

/-- Terminal user-visible status of the submission: `success` is the
"Present Marked" state (line 246), `completed` the final state set by the
timeout (line 269), `errored` the catch-branch state (line 275). -/
inductive FinalStatus where
  | success
  | errored
  | completed
deriving DecidableEq, Repr

/-- Observable effects of one `sendAttendance` run:
`validatorCalls` — invocations of the `validate-face-image` function
(the body contains none);
`storagePut` — whether the storage `upload` call was made (line 188);
`record` — the row handed to the `attendance_records` insert (line 227);
`insertAttempted` — whether the insert call was made (always, line 225);
`dbErrorLogged` — whether the insert returned an error, which is only
logged (line 240);
`emailAttempted` — whether the email function was invoked (line 252);
`status` — the terminal status. -/
structure SendResult (α : Type) where
  validatorCalls : Nat
  storagePut : Bool
  record : AttendanceRecord α
  insertAttempted : Bool
  dbErrorLogged : Bool
  emailAttempted : Bool
  status : FinalStatus
deriving DecidableEq, Repr

/-- The literal `confidenceScore = 0.90` of part_001 line 219. -/
def confidenceScore : Rat := 90 / 100

/-- `sendAttendance` (part_001 lines 153-284) on the main path (user,
profile and video element present).  The image is uploaded first; an upload
or signed-URL error is logged and leaves `imageUrl` null (lines 195-210).
The record is then inserted unconditionally with `status: "present"` and
the constant confidence score (lines 225-243); a `dbError` is only logged.
The flow then sets the success status, invokes the email function inside
its own try/catch, and the timeout moves the status to `completed`
(lines 245-272). -/
def sendAttendance {α : Type} (userId : String) (profile : Profile)
    (vector : α) (c : Collab) : SendResult α :=
  let imageUrl : Option String :=
    if c.uploadError then none
    else if c.signedUrlError then none
    else some c.signedUrl
  let record : AttendanceRecord α :=
    { user_id := userId
      roll_number := profile.roll_number
      student_name := profile.full_name
      email := profile.email
      confidence_score := confidenceScore
      status := "present"
      face_vector := vector
      image_url := imageUrl }
  { validatorCalls := 0
    storagePut := true
    record := record
    insertAttempted := true
    dbErrorLogged := c.insertError
    emailAttempted := true
    status := .completed }

/-!
Model of the enrollment upload flow, `uploadPhotos` in
`src/components/FaceEnrollment.tsx` (src/unnamed/part_000 lines 86-165).
This is the only flow that invokes the `validate-face-image` function;
a failed validation throws before the storage upload of that photo
(lines 104-116), and any throw skips the profile update (lines 142-147).
-/

/-- Collaborator outcomes for one photo of the enrollment loop:
`validationValid` — the validate-face-image invocation returned no error
and `valid: true` (part_000 line 114); `uploadError` — the storage upload
returned an error (line 129); `urlError` — `createSignedUrl` returned an
error (line 136). -/
structure PhotoEnv where
  validationValid : Bool
  uploadError : Bool
  urlError : Bool
deriving DecidableEq, Repr

/-- The `for` loop of part_000 lines 100-139.  Returns the number of
storage upload calls made and whether the loop finished without throwing.
A photo that fails validation throws before its upload; a photo whose
upload or signed-URL call errors throws after its upload call. -/
def uploadLoop : List PhotoEnv → Nat × Bool
  | [] => (0, true)
  | p :: rest =>
    if !p.validationValid then (0, false)
    else if p.uploadError then (1, false)
    else if p.urlError then (1, false)
    else
      let r := uploadLoop rest
      (r.1 + 1, r.2)

/-- Observable effects of one `uploadPhotos` run: number of storage upload
calls, whether the `profiles` update (the durable record write of this
flow, line 142) was attempted, and whether the success toast was shown. -/
structure UploadOutcome where
  puts : Nat
  profileUpdateAttempted : Bool
  success : Bool
deriving DecidableEq, Repr

/-- `uploadPhotos` (part_000 lines 86-165): run the per-photo loop; if it
throws, the catch branch shows the failure toast and the profile update is
never reached; otherwise the profile update runs (and its own error would
throw, line 147). -/
def uploadPhotos (photos : List PhotoEnv) (updateError : Bool) : UploadOutcome :=
  let r := uploadLoop photos
  if r.2 then
    { puts := r.1, profileUpdateAttempted := true, success := !updateError }
  else
    { puts := r.1, profileUpdateAttempted := false, success := false }

/-!
Concrete synthetic inputs used by the claims.  Each is padded with zero
bytes to reach 1000 bytes (the minimum the size gate admits); the padding
is never reached by the header parsers.
-/

/-- Synthetic JPEG: SOI, then an SOF0 segment (marker `0xC0` at index 3,
segment length at 4-5, precision at 6, height 50 at 7-8, width 50 at
9-10). -/
def jpeg50 : List Nat :=
  [0xFF, 0xD8, 0xFF, 0xC0, 0x00, 0x11, 0x08, 0x00, 0x32, 0x00, 0x32, 0x01]
    ++ List.replicate 988 0

/-- Synthetic JPEG with SOF0 height 200 and width 200. -/
def jpeg200 : List Nat :=
  [0xFF, 0xD8, 0xFF, 0xC0, 0x00, 0x11, 0x08, 0x00, 0xC8, 0x00, 0xC8, 0x01]
    ++ List.replicate 988 0

/-- Synthetic JPEG with SOF0 height 200 and width 5000 (`0x1388`). -/
def jpeg5000 : List Nat :=
  [0xFF, 0xD8, 0xFF, 0xC0, 0x00, 0x11, 0x08, 0x00, 0xC8, 0x13, 0x88, 0x01]
    ++ List.replicate 988 0

/-- Synthetic JPEG discriminating the two offset conventions: reading
16-bit values at 3 and 5 bytes past the marker-type byte (indices 6-7 and
8-9) gives 200 and 200, while the positions the code actually reads
(indices 7-8 and 9-10) hold 51200 and 51200. -/
def jpegProbe : List Nat :=
  [0xFF, 0xD8, 0xFF, 0xC0, 0x00, 0x11, 0x00, 0xC8, 0x00, 0xC8, 0x00, 0x01]
    ++ List.replicate 988 0

/-- Synthetic PNG: 8-byte signature, IHDR length and type, width 4000
(`0x0FA0`) at bytes 16-19, height 4000 at bytes 20-23. -/
def png4000 : List Nat :=
  [0x89, 0x50, 0x4E, 0x47, 0x0D, 0x0A, 0x1A, 0x0A,
   0x00, 0x00, 0x00, 0x0D, 0x49, 0x48, 0x44, 0x52,
   0x00, 0x00, 0x0F, 0xA0, 0x00, 0x00, 0x0F, 0xA0]
    ++ List.replicate 976 0

/-- Synthetic PNG with IHDR width 4001 (`0x0FA1`) and height 4000. -/
def png4001 : List Nat :=
  [0x89, 0x50, 0x4E, 0x47, 0x0D, 0x0A, 0x1A, 0x0A,
   0x00, 0x00, 0x00, 0x0D, 0x49, 0x48, 0x44, 0x52,
   0x00, 0x00, 0x0F, 0xA1, 0x00, 0x00, 0x0F, 0xA0]
    ++ List.replicate 976 0

/-- Synthetic RIFF container (1000 bytes, RIFF signature, no WEBP tag
anywhere). -/
def riffFile : List Nat :=
  [0x52, 0x49, 0x46, 0x46] ++ List.replicate 996 0

/-- A concrete profile used by the counterexample runs. -/
def profileEx : Profile :=
  { roll_number := "42", full_name := "A. Student", email := "student@example.com" }

/-- Collaborator outcomes where every external call succeeds. -/
def collabAllOk : Collab :=
  { uploadError := false, signedUrlError := false, signedUrl := "signed-url",
    insertError := false, emailError := false }

/-- Collaborator outcomes where only the record insert fails. -/
def collabInsertFails : Collab :=
  { uploadError := false, signedUrlError := false, signedUrl := "signed-url",
    insertError := true, emailError := false }

/-- The JPEG marker loop cannot exhaust its fuel: every iteration advances
the cursor by at least 2, so fuel exceeding the remaining length always
reaches one of the loop exits.  In particular the `| x => ...` fallback of
`validateBytes` only ever sees `some none` (the loop breaking without a
dimension error). -/
theorem jpegScan_no_fuel_exhaustion (bytes : List Nat) :
    ∀ fuel offset, bytes.length - offset < fuel →
      jpegScan bytes fuel offset ≠ none := by
  intro fuel
  induction fuel with
  | zero =>
    intro offset h
    omega
  | succ n ih =>
    intro offset h
    simp only [jpegScan]
    split_ifs with hlt hff hsof hsmall hlarge
    · simp
    · simp
    · simp
    · simp
    · exact ih _ (by omega)
    · simp

/-! Helper lemmas about the magic-byte matcher. -/

/-- Unfolding one step of the signature match. -/
theorem matchesMagic_cons {bytes : List Nat} {m : Nat} {ms : List Nat} :
    matchesMagic bytes (m :: ms) = true ↔
      ∃ bs, bytes = m :: bs ∧ matchesMagic bs ms = true := by
  cases bytes with
  | nil => simp [matchesMagic]
  | cons b bs =>
    simp only [matchesMagic, Bool.and_eq_true, beq_iff_eq]
    constructor
    · rintro ⟨rfl, h⟩
      exact ⟨bs, rfl, h⟩
    · rintro ⟨bs2, heq, h⟩
      cases heq
      exact ⟨rfl, h⟩

/-- A signature whose first byte differs never matches. -/
theorem matchesMagic_false_of_head {b m : Nat} (h : b ≠ m) (bs ms : List Nat) :
    matchesMagic (b :: bs) (m :: ms) = false := by
  simp [matchesMagic, h]

/-- A byte sequence matching the JPEG signature starts with its three
bytes. -/
theorem jpeg_shape {bytes : List Nat} (h : matchesMagic bytes jpegMagic = true) :
    ∃ bs, bytes = 0xFF :: 0xD8 :: 0xFF :: bs := by
  rw [show jpegMagic = 0xFF :: 0xD8 :: 0xFF :: ([] : List Nat) from rfl] at h
  obtain ⟨b1, rfl, h1⟩ := matchesMagic_cons.mp h
  obtain ⟨b2, rfl, h2⟩ := matchesMagic_cons.mp h1
  obtain ⟨b3, rfl, h3⟩ := matchesMagic_cons.mp h2
  exact ⟨b3, rfl⟩

/-- A byte sequence matching the PNG signature starts with `0x89`. -/
theorem png_shape {bytes : List Nat} (h : matchesMagic bytes pngMagic = true) :
    ∃ bs, bytes = 0x89 :: bs := by
  rw [show pngMagic = 0x89 :: [0x50, 0x4E, 0x47] from rfl] at h
  obtain ⟨bs, rfl, -⟩ := matchesMagic_cons.mp h
  exact ⟨bs, rfl⟩

/-- A byte sequence matching the RIFF signature starts with `0x52`. -/
theorem riff_shape {bytes : List Nat} (h : matchesMagic bytes riffMagic = true) :
    ∃ bs, bytes = 0x52 :: bs := by
  rw [show riffMagic = 0x52 :: [0x49, 0x46, 0x46] from rfl] at h
  obtain ⟨bs, rfl, -⟩ := matchesMagic_cons.mp h
  exact ⟨bs, rfl⟩

/-- Matching one signature rules out any signature with a different first
byte. -/
theorem magic_mismatch {bytes : List Nat} {m₁ m₂ : Nat} {ms₁ ms₂ : List Nat}
    (h : matchesMagic bytes (m₁ :: ms₁) = true) (hne : m₁ ≠ m₂) :
    matchesMagic bytes (m₂ :: ms₂) = false := by
  obtain ⟨bs, heq, -⟩ := matchesMagic_cons.mp h
  rw [heq]
  exact matchesMagic_false_of_head hne _ _

/-- Reduction of the validator on an in-bounds RIFF-headed sequence: the
size gate passes, only the webp signature matches, and there is no webp
dimension branch. -/
theorem validateBytes_webp {bytes : List Nat}
    (h1 : 1000 ≤ bytes.length) (h2 : bytes.length ≤ 5242880)
    (hr : matchesMagic bytes riffMagic = true) :
    validateBytes bytes = .ok "webp" bytes.length := by
  have hr' : matchesMagic bytes (0x52 :: [0x49, 0x46, 0x46]) = true := hr
  have hj : matchesMagic bytes (0xFF :: [0xD8, 0xFF]) = false :=
    magic_mismatch hr' (by decide)
  have hp : matchesMagic bytes (0x89 :: [0x50, 0x4E, 0x47]) = false :=
    magic_mismatch hr' (by decide)
  unfold validateBytes
  rw [if_neg (by unfold MAX_FILE_SIZE; omega), if_neg (by omega)]
  unfold detectFormat jpegMagic pngMagic riffMagic
  rw [hj, hp, hr']
  simp

/-- The third byte of a JPEG-signature sequence is `0xFF`. -/
theorem byteAt_two_of_jpeg {bytes : List Nat}
    (h : matchesMagic bytes jpegMagic = true) : byteAt bytes 2 = some 0xFF := by
  obtain ⟨bs, heq⟩ := jpeg_shape h
  rw [heq]
  rfl

/-- Reduction of the validator on an in-bounds JPEG-headed sequence whose
byte at index 3 is an SOF marker: the scan finds the SOF in its first
iteration and gates on the 16-bit values at indices 7 (height, 4 bytes
past the marker-type byte at index 3) and 9 (width, 6 bytes past it). -/
theorem validateBytes_jpeg_sof {bytes : List Nat}
    (h1 : 1000 ≤ bytes.length) (h2 : bytes.length ≤ 5242880)
    (hm : matchesMagic bytes jpegMagic = true)
    (hsof : isSOF (byteAt bytes 3) = true) :
    validateBytes bytes =
      (if be16 bytes 9 < MIN_DIMENSION ∨ be16 bytes 7 < MIN_DIMENSION then
        VResult.err imageTooSmallMsg
      else if be16 bytes 9 > MAX_DIMENSION ∨ be16 bytes 7 > MAX_DIMENSION then
        VResult.err imageTooLargeMsg
      else VResult.ok "jpeg" bytes.length) := by
  have hm' : matchesMagic bytes (0xFF :: [0xD8, 0xFF]) = true := hm
  have h2ff : byteAt bytes 2 = some 0xFF := byteAt_two_of_jpeg hm
  have hL : ¬ (bytes.length > MAX_FILE_SIZE) := by unfold MAX_FILE_SIZE; omega
  have hS : ¬ (bytes.length < 1000) := by omega
  have h2lt : 2 < bytes.length := by omega
  simp only [validateBytes, detectFormat, jpegMagic, hm', hL, hS, h2lt, h2ff,
    jpegScan, hsof, if_true, if_false, ite_true, ite_false, eq_self_iff_true,
    ne_eq, Option.some.injEq, not_true_eq_false, Nat.reduceAdd, if_pos,
    reduceIte, Nat.reduceEqDiff, not_false_eq_true]
  split_ifs <;> rfl

/-- `a <<< k ||| b` is plain addition when `b` fits in `k` bits. -/
theorem shiftLeft_lor_eq_add (a b k : Nat) (h : b < 2 ^ k) :
    a <<< k ||| b = a * 2 ^ k + b := by
  rw [Nat.shiftLeft_eq, Nat.mul_comm a (2 ^ k), ← Nat.mul_add_lt_is_or h a]

/-- Every `byteAtD` read of a byte sequence with byte-sized elements is
below 256. -/
theorem byteAtD_lt {bytes : List Nat} (h : ∀ b ∈ bytes, b < 256) (i : Nat) :
    byteAtD bytes i < 256 := by
  unfold byteAtD
  rw [List.getD_eq_getElem?_getD]
  cases hg : bytes[i]? with
  | none => simp [hg]
  | some b =>
    have hb := h b (List.getElem?_mem hg)
    simp [hg, hb]

/-- On byte-sized elements, the JavaScript shift-and-or combination the
source computes equals the big-endian 32-bit integer of the spec. -/
theorem u32at_eq_beNat32 {bytes : List Nat} (h : ∀ b ∈ bytes, b < 256)
    (i : Nat) : u32at bytes i = beNat32 bytes i := by
  have h0 := byteAtD_lt h i
  have h1 := byteAtD_lt h (i + 1)
  have h2 := byteAtD_lt h (i + 2)
  have h3 := byteAtD_lt h (i + 3)
  unfold u32at beNat32
  rw [Nat.lor_assoc, Nat.lor_assoc]
  rw [shiftLeft_lor_eq_add _ _ 8 (by omega)]
  rw [shiftLeft_lor_eq_add _ _ 16 (by omega)]
  rw [shiftLeft_lor_eq_add _ _ 24 (by omega)]
  ring

/-- The signed reinterpretation lies inside the dimension bounds exactly
when the unsigned value does: values at or above `2 ^ 31` reinterpret as
negative (below the minimum) and as unsigned exceed the maximum, so the
accept decision agrees. -/
theorem toSigned32_range_iff (u : Nat) (hu : u < 2 ^ 32) :
    ((MIN_DIMENSION : Int) ≤ toSigned32 u ∧ toSigned32 u ≤ (MAX_DIMENSION : Int)) ↔
      (MIN_DIMENSION ≤ u ∧ u ≤ MAX_DIMENSION) := by
  unfold toSigned32 MIN_DIMENSION MAX_DIMENSION at *
  split_ifs with hcase
  · omega
  · omega

/-- Reduction of the validator on an in-bounds PNG-headed sequence of
length at least 24: the result is the dimension gate applied to the signed
32-bit reads at offsets 16 and 20. -/
theorem validateBytes_png {bytes : List Nat}
    (h1 : 1000 ≤ bytes.length) (h2 : bytes.length ≤ 5242880)
    (hp : matchesMagic bytes pngMagic = true) (h24 : 24 ≤ bytes.length) :
    validateBytes bytes =
      (if be32js bytes 16 < (MIN_DIMENSION : Int) ∨
          be32js bytes 20 < (MIN_DIMENSION : Int) then
        VResult.err imageTooSmallMsg
      else if be32js bytes 16 > (MAX_DIMENSION : Int) ∨
          be32js bytes 20 > (MAX_DIMENSION : Int) then
        VResult.err imageTooLargeMsg
      else VResult.ok "png" bytes.length) := by
  have hp' : matchesMagic bytes (0x89 :: [0x50, 0x4E, 0x47]) = true := hp
  have hj : matchesMagic bytes (0xFF :: [0xD8, 0xFF]) = false :=
    magic_mismatch hp' (by decide)
  have hL : ¬ (bytes.length > MAX_FILE_SIZE) := by unfold MAX_FILE_SIZE; omega
  have hS : ¬ (bytes.length < 1000) := by omega
  simp only [validateBytes, detectFormat, jpegMagic, pngMagic, hp', hj, hL,
    hS, h24, if_true, if_false, ite_true, ite_false, eq_self_iff_true,
    reduceIte, if_pos, not_false_eq_true]
  simp

/-! Claim theorems. -/

/-- C6: for every decoded byte sequence, the validator rejects with the
size reason whenever the length is below 1000 bytes ("too small") or above
5,242,880 bytes ("too large"), regardless of the content of the bytes. -/
theorem C6_size_gate :
    (∀ bytes : List Nat, bytes.length < 1000 →
      validateBytes bytes = .err fileTooSmallMsg) ∧
    (∀ bytes : List Nat, bytes.length > 5242880 →
      validateBytes bytes = .err fileTooLargeMsg) := by
  constructor
  · intro bytes h
    unfold validateBytes
    rw [if_neg (by unfold MAX_FILE_SIZE; omega), if_pos h]
  · intro bytes h
    unfold validateBytes
    rw [if_pos (by unfold MAX_FILE_SIZE; omega)]

/-- Witness for C6: the empty sequence is rejected as too small and a
5,242,881-byte sequence as too large. -/
theorem C6_size_gate_witness :
    validateBytes [] = .err fileTooSmallMsg ∧
    validateBytes (List.replicate 5242881 0) = .err fileTooLargeMsg :=
  ⟨C6_size_gate.1 [] (by decide),
   C6_size_gate.2 (List.replicate 5242881 0)
     (by rw [List.length_replicate]; omega)⟩

/-- C7: a byte sequence inside the size bounds whose leading bytes match
none of the three signatures is rejected with the invalid-format reason,
and the declared MIME subtype never influences the byte-level decision. -/
theorem C7_magic_gate :
    (∀ (t : String) (bytes : List Nat),
        1000 ≤ bytes.length → bytes.length ≤ 5242880 →
        matchesMagic bytes jpegMagic = false →
        matchesMagic bytes pngMagic = false →
        matchesMagic bytes riffMagic = false →
        serveValidate t bytes = .err invalidFormatMsg) ∧
    (∀ (t₁ t₂ : String) (bytes : List Nat),
        serveValidate t₁ bytes = serveValidate t₂ bytes) := by
  constructor
  · intro t bytes h1 h2 hj hp hr
    have hL : ¬ (bytes.length > MAX_FILE_SIZE) := by unfold MAX_FILE_SIZE; omega
    have hS : ¬ (bytes.length < 1000) := by omega
    simp [serveValidate, validateBytes, detectFormat, hj, hp, hr, hL, hS]
  · intro t₁ t₂ bytes
    rfl

/-- Witness for C7: a 1000-byte sequence of `0x07` bytes is rejected as
invalid format whatever subtype the data URI declared. -/
theorem C7_magic_gate_witness :
    serveValidate "png" (List.replicate 1000 7) = .err invalidFormatMsg :=
  C7_magic_gate.1 "png" (List.replicate 1000 7)
    (by rw [List.length_replicate]) (by rw [List.length_replicate]; omega)
    (by decide) (by decide) (by decide)

/-- C8: whenever the authenticated principal differs from the claimed
owner id, the request fails with the authorization error (a kind distinct
from every validation error) and the byte-level validator runs zero
times — the payload is never even decoded. -/
theorem C8_authz_before_validation :
    ∀ (principal claimed : String) (photoCount : Nat)
      (payload : Option (String × List Nat)),
      principal ≠ claimed →
      ingest principal claimed photoCount payload = (.authzError, 0) := by
  intro p c n payload h
  simp [ingest, h]

/-- Witness for C8: two distinct principals, a well-formed JPEG payload,
zero validator invocations. -/
theorem C8_authz_before_validation_witness :
    ingest "principalA" "principalB" 0 (some ("jpeg", jpeg200)) =
      (.authzError, 0) :=
  C8_authz_before_validation "principalA" "principalB" 0
    (some ("jpeg", jpeg200)) (by decide)

/-- C10: every in-bounds byte sequence beginning with the four RIFF bytes
is accepted as format "webp" with no dimension check, and the result
depends on nothing past the fourth byte: any two RIFF-headed sequences of
the same in-bounds length validate identically. -/
theorem C10_riff_accepted :
    (∀ bytes : List Nat, 1000 ≤ bytes.length → bytes.length ≤ 5242880 →
      matchesMagic bytes riffMagic = true →
      validateBytes bytes = .ok "webp" bytes.length) ∧
    (∀ bytes₁ bytes₂ : List Nat,
      1000 ≤ bytes₁.length → bytes₁.length ≤ 5242880 →
      matchesMagic bytes₁ riffMagic = true →
      bytes₂.length = bytes₁.length →
      matchesMagic bytes₂ riffMagic = true →
      validateBytes bytes₂ = validateBytes bytes₁) := by
  refine ⟨fun bytes h1 h2 hr => validateBytes_webp h1 h2 hr, ?_⟩
  intro bytes₁ bytes₂ h1 h2 hr1 hlen hr2
  rw [validateBytes_webp h1 h2 hr1,
    validateBytes_webp (by omega) (by omega) hr2, hlen]

/-- Witness for C10: a 1000-byte RIFF container with no WEBP tag is
accepted as webp. -/
theorem C10_riff_accepted_witness :
    validateBytes riffFile = .ok "webp" riffFile.length :=
  C10_riff_accepted.1 riffFile (by decide) (by decide) (by decide)

/-- C3: when the storage upload fails but the record insert succeeds, the
submission still terminates in the success state and the persisted record
has a null image reference. -/
theorem C3_upload_failure_nonfatal :
    ∀ (α : Type) (userId : String) (profile : Profile) (vector : α)
      (c : Collab),
      (sendAttendance userId profile vector
          { c with uploadError := true, insertError := false }).record.image_url
        = none ∧
      (sendAttendance userId profile vector
          { c with uploadError := true, insertError := false }).status
        = .completed ∧
      (sendAttendance userId profile vector
          { c with uploadError := true, insertError := false }).dbErrorLogged
        = false := by
  intro α u p v c
  simp [sendAttendance]

/-- C9: the persisted record carries the constant status "present" and the
constant confidence score 0.90, independent of the captured descriptor:
two runs differing only in the descriptor produce records identical except
for the stored vector. -/
theorem C9_descriptor_independent :
    ∀ (α : Type) (userId : String) (profile : Profile) (v₁ v₂ : α)
      (c : Collab),
      (sendAttendance userId profile v₁ c).record.status = "present" ∧
      (sendAttendance userId profile v₁ c).record.confidence_score = 90 / 100 ∧
      (sendAttendance userId profile v₂ c).record =
        { (sendAttendance userId profile v₁ c).record with face_vector := v₂ } := by
  intro α u p v₁ v₂ c
  refine ⟨rfl, rfl, rfl⟩

/-- C2 counterexample: with every collaborator succeeding except the
record insert, the submission still reaches the success terminal state
(not the error state) and the email notification is still invoked,
contradicting the claim that an insert failure yields Errored with no
notification. -/
theorem C2_counterexample :
    (sendAttendance "user-1" profileEx ([1, 2] : List Int)
        collabInsertFails).dbErrorLogged = true ∧
    (sendAttendance "user-1" profileEx ([1, 2] : List Int)
        collabInsertFails).status ≠ .errored ∧
    (sendAttendance "user-1" profileEx ([1, 2] : List Int)
        collabInsertFails).emailAttempted = true := by
  refine ⟨rfl, by decide, rfl⟩

/-- C2 amended: when the record insert fails, the error is only logged;
the submission still reaches the success terminal state and the email
notification is still sent. -/
theorem C2_insert_failure_logged_only :
    ∀ (α : Type) (userId : String) (profile : Profile) (vector : α)
      (c : Collab),
      (sendAttendance userId profile vector
          { c with insertError := true }).dbErrorLogged = true ∧
      (sendAttendance userId profile vector
          { c with insertError := true }).status = .completed ∧
      (sendAttendance userId profile vector
          { c with insertError := true }).emailAttempted = true := by
  intro α u p v c
  refine ⟨rfl, rfl, rfl⟩

/-- Element bound for a literal header padded with `List.replicate`. -/
theorem bytes_lt_of_append_replicate (pre : List Nat) (n pad : Nat)
    (hpre : ∀ b ∈ pre, b < 256) (hpad : pad < 256) :
    ∀ b ∈ pre ++ List.replicate n pad, b < 256 := by
  intro b hb
  rw [List.mem_append] at hb
  rcases hb with hb | hb
  · exact hpre b hb
  · rw [List.mem_replicate] at hb
    omega

/-- Every element of `png4000` is a byte. -/
theorem png4000_bytes_lt : ∀ b ∈ png4000, b < 256 := by
  unfold png4000
  exact bytes_lt_of_append_replicate _ _ _ (by decide) (by decide)

/-- C4 counterexample: on `jpegProbe` the 16-bit values 3 and 5 bytes past
the marker-type byte (which sits at index 3) are 200 and 200 — dimensions
inside the accepted range, so under the offsets the claim states the
validator would accept — yet the validator rejects the image as too large,
because it reads 4 and 6 bytes past the marker-type byte. -/
theorem C4_counterexample :
    be16 jpegProbe (3 + 3) = 200 ∧ be16 jpegProbe (3 + 5) = 200 ∧
    MIN_DIMENSION ≤ 200 ∧ (200 : Nat) ≤ MAX_DIMENSION ∧
    validateBytes jpegProbe = .err imageTooLargeMsg := by
  refine ⟨by decide, by decide, by decide, by decide, by decide⟩

/-- C4 (amended): for an in-bounds JPEG-detected sequence whose marker
walk finds an SOF marker at index 3 (any byte in `0xC0..0xCF` except
`0xC4`, `0xC8`, `0xCC`), the validator gates on height read as the
big-endian 16-bit value 4 bytes past the marker-type byte (index 7) and
width 6 bytes past it (index 9) — equivalently, at cursor offsets +3 and
+5 measured from the first byte of the segment, the byte after the
marker-type byte.  The synthetic SOF0 test vectors behave as the claim
states: 50x50 is rejected as too small, 200x200 accepted, and width 5000
rejected as too large. -/
theorem C4_jpeg_dimension_read :
    (∀ bytes : List Nat, 1000 ≤ bytes.length → bytes.length ≤ 5242880 →
      matchesMagic bytes jpegMagic = true → isSOF (byteAt bytes 3) = true →
      validateBytes bytes =
        (if be16 bytes 9 < MIN_DIMENSION ∨ be16 bytes 7 < MIN_DIMENSION then
          VResult.err imageTooSmallMsg
        else if be16 bytes 9 > MAX_DIMENSION ∨ be16 bytes 7 > MAX_DIMENSION then
          VResult.err imageTooLargeMsg
        else VResult.ok "jpeg" bytes.length)) ∧
    validateBytes jpeg50 = .err imageTooSmallMsg ∧
    validateBytes jpeg200 = .ok "jpeg" 1000 ∧
    validateBytes jpeg5000 = .err imageTooLargeMsg := by
  refine ⟨fun bytes h1 h2 hm hsof => validateBytes_jpeg_sof h1 h2 hm hsof,
    by decide, by decide, by decide⟩

/-- Witness for C4: the 200x200 SOF0 vector discharges the hypotheses of
the general statement and evaluates to acceptance. -/
theorem C4_jpeg_dimension_read_witness :
    validateBytes jpeg200 = .ok "jpeg" jpeg200.length := by
  have h := C4_jpeg_dimension_read.1 jpeg200 (by decide) (by decide)
    (by decide) (by decide)
  rw [h]
  decide

/-- C5: for every in-bounds PNG-detected byte sequence of length at least
24 with byte-sized elements, the validator accepts exactly when the
big-endian 32-bit integers at offsets 16 (width) and 20 (height) both lie
in the dimension bounds; the synthetic IHDR vectors behave as the claim
states: 4000x4000 accepted, width 4001 rejected. -/
theorem C5_png_dimension_gate :
    (∀ bytes : List Nat, (∀ b ∈ bytes, b < 256) →
      1000 ≤ bytes.length → bytes.length ≤ 5242880 →
      matchesMagic bytes pngMagic = true → 24 ≤ bytes.length →
      (validateBytes bytes = .ok "png" bytes.length ↔
        (MIN_DIMENSION ≤ beNat32 bytes 16 ∧ beNat32 bytes 16 ≤ MAX_DIMENSION ∧
         MIN_DIMENSION ≤ beNat32 bytes 20 ∧ beNat32 bytes 20 ≤ MAX_DIMENSION))) ∧
    validateBytes png4000 = .ok "png" 1000 ∧
    validateBytes png4001 = .err imageTooLargeMsg := by
  refine ⟨?_, by decide, by decide⟩
  intro bytes h256 h1 h2 hp h24
  rw [validateBytes_png h1 h2 hp h24]
  have e16 : u32at bytes 16 = beNat32 bytes 16 := u32at_eq_beNat32 h256 16
  have e20 : u32at bytes 20 = beNat32 bytes 20 := u32at_eq_beNat32 h256 20
  have b16 : beNat32 bytes 16 < 2 ^ 32 := by
    have k0 := byteAtD_lt h256 16
    have k1 := byteAtD_lt h256 17
    have k2 := byteAtD_lt h256 18
    have k3 := byteAtD_lt h256 19
    unfold beNat32
    simp only [Nat.reduceAdd]
    omega
  have b20 : beNat32 bytes 20 < 2 ^ 32 := by
    have k0 := byteAtD_lt h256 20
    have k1 := byteAtD_lt h256 21
    have k2 := byteAtD_lt h256 22
    have k3 := byteAtD_lt h256 23
    unfold beNat32
    simp only [Nat.reduceAdd]
    omega
  have H16 := toSigned32_range_iff (beNat32 bytes 16) b16
  have H20 := toSigned32_range_iff (beNat32 bytes 20) b20
  unfold be32js
  rw [e16, e20]
  constructor
  · intro hok
    by_cases hA : toSigned32 (beNat32 bytes 16) < (MIN_DIMENSION : Int) ∨
        toSigned32 (beNat32 bytes 20) < (MIN_DIMENSION : Int)
    · rw [if_pos hA] at hok
      exact absurd hok (by simp)
    · rw [if_neg hA] at hok
      by_cases hB : toSigned32 (beNat32 bytes 16) > (MAX_DIMENSION : Int) ∨
          toSigned32 (beNat32 bytes 20) > (MAX_DIMENSION : Int)
      · rw [if_pos hB] at hok
        exact absurd hok (by simp)
      · push_neg at hA hB
        have p16 := H16.mp ⟨hA.1, hB.1⟩
        have p20 := H20.mp ⟨hA.2, hB.2⟩
        exact ⟨p16.1, p16.2, p20.1, p20.2⟩
  · rintro ⟨p1, p2, p3, p4⟩
    have q16 := H16.mpr ⟨p1, p2⟩
    have q20 := H20.mpr ⟨p3, p4⟩
    rw [if_neg (by push_neg; exact ⟨q16.1, q20.1⟩),
      if_neg (by push_neg; exact ⟨q16.2, q20.2⟩)]

/-- Witness for C5: the 4000x4000 IHDR vector discharges the hypotheses of
the general statement and its dimensions lie inside the bounds, so the
equivalence yields acceptance. -/
theorem C5_png_dimension_gate_witness :
    validateBytes png4000 = .ok "png" png4000.length := by
  have h := C5_png_dimension_gate.1 png4000 png4000_bytes_lt (by decide)
    (by decide) (by decide) (by decide)
  exact h.mpr (by decide)

/-- C1 counterexample: a concrete attendance submission performs the
storage write and the record insert while invoking the validator zero
times, contradicting the claim that validation completes successfully
before any durable artifact is written. -/
theorem C1_counterexample :
    (sendAttendance "user-1" profileEx ([1, 2] : List Int)
        collabAllOk).validatorCalls = 0 ∧
    (sendAttendance "user-1" profileEx ([1, 2] : List Int)
        collabAllOk).storagePut = true ∧
    (sendAttendance "user-1" profileEx ([1, 2] : List Int)
        collabAllOk).insertAttempted = true := by
  refine ⟨rfl, rfl, rfl⟩

/-- C1 amended: the attendance submission flow never invokes the
validator, so validation gates no durable artifact there; the enrollment
upload flow is the one that validates, and there a failed validation of
the first photo aborts the submission with zero storage writes and no
profile record write. -/
theorem C1_validation_gates_only_enrollment :
    (∀ (α : Type) (userId : String) (profile : Profile) (vector : α)
        (c : Collab),
        (sendAttendance userId profile vector c).validatorCalls = 0) ∧
    (∀ (env : PhotoEnv) (rest : List PhotoEnv) (updateError : Bool),
        uploadPhotos ({ env with validationValid := false } :: rest)
            updateError =
          { puts := 0, profileUpdateAttempted := false, success := false }) := by
  constructor
  · intro α u p v c
    rfl
  · intro env rest uErr
    simp [uploadPhotos, uploadLoop]

end AttendanceSystem
